import Mathlib

/-!
# CRM360 Visitor Tracking SDK — shallow embedding

Shallow embedding of `packages/tracker-python/crm360_tracker/__init__.py`
(`CRM360Tracker`). Python dicts become association lists of `String × JVal`
(Python dicts preserve insertion order and have distinct keys); `None` is
`JVal.null`; effects (HTTP transport, the wall clock, UUID generation) are
passed in as explicit parameters; a raised exception becomes `Except.error`.
-/

/-- A Python/JSON value as built by the tracker's payload constructors. -/
inductive JVal where
  | null
  | str (s : String)
  | int (n : Int)
  | obj (fields : List (String × JVal))
  | arr (items : List JVal)
deriving Repr

/-- `None`-or-string arguments (`Optional[str]`) as they are embedded into a
payload: `None` serializes to `null`. -/
def JVal.ofOptStr : Option String → JVal
  | none => .null
  | some s => .str s

/-- `Optional[int]` arguments embedded into a payload. -/
def JVal.ofOptInt : Option Int → JVal
  | none => .null
  | some n => .int n

/-- The Python test `v is None` used by `identify`'s trait filter. -/
def JVal.isNull : JVal → Bool
  | .null => true
  | _ => false

/-- Look a key up in an object's field list (first occurrence, as a Python
dict read would see it). -/
def JVal.lookup (v : JVal) (key : String) : Option JVal :=
  match v with
  | .obj fields => (fields.find? (fun kv => kv.1 == key)).map (·.2)
  | _ => none

/-- Python string truthiness `s or d` for an optional string: `None` and the
empty string are falsy and select the fallback. -/
def pyOrStr (s : Option String) (d : String) : String :=
  match s with
  | none => d
  | some s => if s = "" then d else s

/-- Python ASCII lowering `str.lower` as it acts on the characters relevant
here (the A–Z range; the tracker compares against ASCII keywords). -/
def pyLower (s : String) : String :=
  ⟨s.data.map Char.toLower⟩

/-- Contiguous-sublist test on character lists. -/
def charsInfixOf (needle : List Char) : List Char → Bool
  | [] => needle.isPrefixOf []
  | c :: rest => needle.isPrefixOf (c :: rest) || charsInfixOf needle rest

/-- Python substring test `needle in hay` on strings. -/
def strContainsSub (hay needle : String) : Bool :=
  charsInfixOf needle.data hay.data

/-! ## The tracker: configuration and transport -/

/-- Tracker state set up by `CRM360Tracker.__init__`: the four configuration
fields plus the (never used) `_queue` list. -/
structure CRM360Tracker where
  api_key : String
  endpoint : String
  timeout : Int
  debug : Bool
  queue : List JVal
deriving Repr

/-- `CRM360Tracker.__init__(api_key, endpoint, timeout, debug)`: stores the
configuration and initializes `self._queue = []`. The Python defaults are
`endpoint = "http://localhost:4000/api/v1/tracking/collect"`, `timeout = 5`,
`debug = False`. -/
def CRM360Tracker.init (api_key : String) (endpoint : String)
    (timeout : Int) (debug : Bool) : CRM360Tracker :=
  { api_key := api_key, endpoint := endpoint, timeout := timeout,
    debug := debug, queue := [] }

/-- The HTTP response object as far as `_send` inspects it. -/
structure HttpResponse where
  status_code : Nat
  text : String
deriving Repr

/-- The outcome of the `requests.post` call inside `_send`'s `try` block:
either a response, or any raised transport exception (connection error,
timeout, malformed response), carrying its message. -/
def HttpOutcome := Except String HttpResponse

/-- The envelope `_send` serializes: `{"apiKey": ..., "type": ..., "data": ...}`. -/
def CRM360Tracker.envelope (t : CRM360Tracker) (event_type : String)
    (data : JVal) : JVal :=
  .obj [("apiKey", .str t.api_key), ("type", .str event_type), ("data", data)]

/-- `CRM360Tracker._send(event_type, data)`: POSTs the envelope and returns
`response.status_code == 200`; the surrounding `try/except Exception` turns
every raised exception into the return value `False`. The network effect is
the `outcome` parameter. -/
def CRM360Tracker.sendResult (_t : CRM360Tracker) (_event_type : String)
    (_data : JVal) (outcome : HttpOutcome) : Bool :=
  match outcome with
  | .ok response => response.status_code == 200
  | .error _ => false

/-! ## Identifier generation

`generate_session_id` returns `str(uuid.uuid4())`; the randomness is outside
the program, so operations that call it take the generated token as the
`gen_session_id` parameter. `generate_visitor_id` hashes with SHA-256, which
is implemented below so the function is executable. -/

/-- Truncate to a 32-bit word, as every SHA-256 word operation does. -/
def w32 (n : Nat) : Nat := n % 4294967296

/-- 32-bit right rotation. -/
def rotr32 (n k : Nat) : Nat :=
  w32 ((n >>> k) ||| (n <<< (32 - k)))

/-- 32-bit bitwise complement. -/
def not32 (n : Nat) : Nat := 4294967295 ^^^ n

/-- SHA-256 message-schedule sigma 0 (FIPS 180-4 σ₀). -/
def sigA (x : Nat) : Nat := rotr32 x 7 ^^^ rotr32 x 18 ^^^ (x >>> 3)

/-- SHA-256 message-schedule sigma 1 (FIPS 180-4 σ₁). -/
def sigB (x : Nat) : Nat := rotr32 x 17 ^^^ rotr32 x 19 ^^^ (x >>> 10)

/-- SHA-256 compression sigma 0 (FIPS 180-4 Σ₀). -/
def sumA (x : Nat) : Nat := rotr32 x 2 ^^^ rotr32 x 13 ^^^ rotr32 x 22

/-- SHA-256 compression sigma 1 (FIPS 180-4 Σ₁). -/
def sumB (x : Nat) : Nat := rotr32 x 6 ^^^ rotr32 x 11 ^^^ rotr32 x 25

/-- The 64 SHA-256 round constants (FIPS 180-4 §4.2.2, in decimal). -/
def sha256K : List Nat :=
  [1116352408, 1899447441, 3049323471, 3921009573, 961987163, 1508970993,
   2453635748, 2870763221, 3624381080, 310598401, 607225278, 1426881987,
   1925078388, 2162078206, 2614888103, 3248222580, 3835390401, 4022224774,
   264347078, 604807628, 770255983, 1249150122, 1555081692, 1996064986,
   2554220882, 2821834349, 2952996808, 3210313671, 3336571891, 3584528711,
   113926993, 338241895, 666307205, 773529912, 1294757372, 1396182291,
   1695183700, 1986661051, 2177026350, 2456956037, 2730485921, 2820302411,
   3259730800, 3345764771, 3516065817, 3600352804, 4094571909, 275423344,
   430227734, 506948616, 659060556, 883997877, 958139571, 1322822218,
   1537002063, 1747873779, 1955562222, 2024104815, 2227730452, 2361852424,
   2428436474, 2756734187, 3204031479, 3329325298]

/-- SHA-256 working state: the eight 32-bit words. -/
structure Sha256State where
  a : Nat
  b : Nat
  c : Nat
  d : Nat
  e : Nat
  f : Nat
  g : Nat
  h : Nat
deriving Repr

/-- SHA-256 initial hash value (FIPS 180-4 §5.3.3, in decimal). -/
def sha256Start : Sha256State :=
  ⟨1779033703, 3144134277, 1013904242, 2773480762,
   1359893119, 2600822924, 528734635, 1541459225⟩

/-- One SHA-256 compression round for a scheduled word `w` and constant `k`. -/
def sha256Round (s : Sha256State) (kw : Nat × Nat) : Sha256State :=
  let t1 := w32 (s.h + sumB s.e + ((s.e &&& s.f) ^^^ (not32 s.e &&& s.g))
    + kw.1 + kw.2)
  let t2 := w32 (sumA s.a + ((s.a &&& s.b) ^^^ (s.a &&& s.c) ^^^ (s.b &&& s.c)))
  ⟨w32 (t1 + t2), s.a, s.b, s.c, w32 (s.d + t1), s.e, s.f, s.g⟩

/-- Read one big-endian 32-bit word out of four bytes. -/
def wordOfBytes : List Nat → Nat
  | [b0, b1, b2, b3] => b0 * 16777216 + b1 * 65536 + b2 * 256 + b3
  | _ => 0

/-- The first 16 schedule words of a 64-byte block. -/
def blockWords (block : List Nat) : List Nat :=
  (List.range 16).map (fun i => wordOfBytes ((block.drop (4 * i)).take 4))

/-- Extend the message schedule by `fuel` further words. -/
def extendSchedule (ws : List Nat) : Nat → List Nat
  | 0 => ws
  | fuel + 1 =>
    let i := ws.length
    let w := w32 (sigB (ws.getD (i - 2) 0) + ws.getD (i - 7) 0
      + sigA (ws.getD (i - 15) 0) + ws.getD (i - 16) 0)
    extendSchedule (ws ++ [w]) fuel

/-- Compress one 64-byte block into the running hash state. -/
def sha256Block (hs : Sha256State) (block : List Nat) : Sha256State :=
  let ws := extendSchedule (blockWords block) 48
  let s := (ws.zip sha256K).foldl sha256Round hs
  ⟨w32 (hs.a + s.a), w32 (hs.b + s.b), w32 (hs.c + s.c), w32 (hs.d + s.d),
   w32 (hs.e + s.e), w32 (hs.f + s.f), w32 (hs.g + s.g), w32 (hs.h + s.h)⟩

/-- Split a byte list into 64-byte chunks. -/
def chunks64 : List Nat → List (List Nat)
  | [] => []
  | b :: bs => (b :: bs).take 64 :: chunks64 ((b :: bs).drop 64)
termination_by l => l.length
decreasing_by simp; omega

/-- Big-endian 8-byte encoding of the bit length. -/
def be64 (n : Nat) : List Nat :=
  [n >>> 56 % 256, n >>> 48 % 256, n >>> 40 % 256, n >>> 32 % 256,
   n >>> 24 % 256, n >>> 16 % 256, n >>> 8 % 256, n % 256]

/-- SHA-256 message padding. -/
def sha256Pad (msg : List Nat) : List Nat :=
  msg ++ [0x80] ++ List.replicate ((64 - (msg.length + 9) % 64) % 64) 0
    ++ be64 (8 * msg.length)

/-- Big-endian bytes of one 32-bit word. -/
def bytesOfWord (w : Nat) : List Nat :=
  [w >>> 24 % 256, w >>> 16 % 256, w >>> 8 % 256, w % 256]

/-- The SHA-256 digest (32 bytes) of a byte string. -/
def sha256 (msg : List Nat) : List Nat :=
  let hs := (chunks64 (sha256Pad msg)).foldl sha256Block sha256Start
  bytesOfWord hs.a ++ bytesOfWord hs.b ++ bytesOfWord hs.c ++ bytesOfWord hs.d
    ++ bytesOfWord hs.e ++ bytesOfWord hs.f ++ bytesOfWord hs.g ++ bytesOfWord hs.h

/-- Lower-case hex digit of a nibble. -/
def hexDigit (n : Nat) : Char :=
  if n < 10 then Char.ofNat (48 + n) else Char.ofNat (87 + n)

/-- Lower-case hex string of a byte list, as `hashlib`'s `hexdigest`. -/
def hexOfBytes (bs : List Nat) : String :=
  ⟨bs.flatMap (fun b => [hexDigit (b / 16), hexDigit (b % 16)])⟩

/-- UTF-8 encoding of one character, as Python `str.encode()`. -/
def utf8Char (c : Char) : List Nat :=
  let n := c.toNat
  if n < 0x80 then [n]
  else if n < 0x800 then
    [0xc0 ||| (n >>> 6), 0x80 ||| (n &&& 0x3f)]
  else if n < 0x10000 then
    [0xe0 ||| (n >>> 12), 0x80 ||| ((n >>> 6) &&& 0x3f), 0x80 ||| (n &&& 0x3f)]
  else
    [0xf0 ||| (n >>> 18), 0x80 ||| ((n >>> 12) &&& 0x3f),
     0x80 ||| ((n >>> 6) &&& 0x3f), 0x80 ||| (n &&& 0x3f)]

/-- UTF-8 bytes of a string, as Python `str.encode()`. -/
def utf8Bytes (s : String) : List Nat :=
  s.data.flatMap utf8Char

/-- `CRM360Tracker.generate_visitor_id(user_agent, ip_address)`: the first 16
hex characters of `sha256((user_agent + ":" + ip_address).encode())`. -/
def CRM360Tracker.generate_visitor_id (_t : CRM360Tracker)
    (user_agent ip_address : String) : String :=
  let fingerprint := user_agent ++ ":" ++ ip_address
  (hexOfBytes (sha256 (utf8Bytes fingerprint))).take 16

/-! ## `urllib.parse.urlparse`, as far as `track_page_view` uses it

`track_page_view` computes `urlparse(url).path or "/"`. The model below
follows CPython 3.11's `urlsplit`/`urlparse`: left-strip of C0 controls and
space, removal of tab/CR/LF, scheme recognition, netloc split at the first of
`/?#`, fragment then query split, and the `;`-params split on the path. The
mismatched-IPv6-bracket `ValueError` is modelled as `Except.error`; the
bracketed-host and non-ASCII-netloc validations (which need `ipaddress` and
NFKC normalization) are outside the model, which treats those URLs as
parsing successfully. -/

/-- The five components of CPython's `SplitResult`, with the path already
params-stripped as `urlparse` returns it (`ParseResult.path`). -/
structure PyParseResult where
  scheme : String
  netloc : String
  path : String
  query : String
  fragment : String
deriving Repr

/-- Characters allowed in a URL scheme (`urllib.parse.scheme_chars`). -/
def isSchemeChar (c : Char) : Bool :=
  c.isAlpha || c.isDigit || c == '+' || c == '-' || c == '.'

/-- Scheme recognition: split at the first `:` when everything before it is
a scheme (first character an ASCII letter, the rest scheme characters). -/
def splitScheme (url : List Char) : String × List Char :=
  match url.findIdx? (· == ':') with
  | some i =>
    if 0 < i && (url.headD ' ').isAlpha && (url.take i).all isSchemeChar then
      (pyLower ⟨url.take i⟩, url.drop (i + 1))
    else ("", url)
  | none => ("", url)

/-- `_splitnetloc`: cut at the earliest of `/`, `?`, `#` (`List.findIdx`
returns the length when none occurs, i.e. the whole rest is the netloc). -/
def splitNetloc (url : List Char) : List Char × List Char :=
  let delim := url.findIdx (fun c => c == '/' || c == '?' || c == '#')
  (url.take delim, url.drop delim)

/-- `str.rfind` for a character, on a list known to contain it. -/
def pyRfind (c : Char) (l : List Char) : Nat :=
  match l.reverse.findIdx? (· == c) with
  | some j => l.length - 1 - j
  | none => 0

/-- `urllib.parse.uses_params`: the schemes for which `urlparse` separates
`;params` from the path. -/
def uses_params : List String :=
  ["", "ftp", "hdl", "prospero", "http", "imap", "https", "shttp", "rtsp",
   "rtsps", "rtspu", "sip", "sips", "mms", "sftp", "tel"]

/-- `_splitparams` applied to the path: drop a `;params` suffix of the last
segment (searching for `;` only after the last `/` when there is one). -/
def splitParamsPath (path : List Char) : List Char :=
  if path.contains '/' then
    let r := pyRfind '/' path
    match ((path.drop r).findIdx? (· == ';')).map (r + ·) with
    | some i => path.take i
    | none => path
  else
    match path.findIdx? (· == ';') with
    | some i => path.take i
    | none => path

/-- `urlparse(url)` restricted to the fields the tracker reads. -/
def pyUrlparse (url : String) : Except String PyParseResult :=
  let u0 := url.data.dropWhile (fun c => c.toNat ≤ 0x20)
  let u1 := u0.filter (fun c => !(c == '\t' || c == '\r' || c == '\n'))
  let (scheme, u2) := splitScheme u1
  let (netloc, u3) :=
    if u2.take 2 = ['/', '/'] then splitNetloc (u2.drop 2) else ([], u2)
  if (netloc.contains '[' && !netloc.contains ']')
      || (netloc.contains ']' && !netloc.contains '[') then
    .error "Invalid IPv6 URL"
  else
    let (u4, fragment) :=
      match u3.findIdx? (· == '#') with
      | some i => (u3.take i, u3.drop (i + 1))
      | none => (u3, [])
    let (path, query) :=
      match u4.findIdx? (· == '?') with
      | some i => (u4.take i, u4.drop (i + 1))
      | none => (u4, [])
    let path :=
      if uses_params.contains scheme && path.contains ';' then
        splitParamsPath path
      else path
    .ok ⟨scheme, ⟨netloc⟩, ⟨path⟩, ⟨query⟩, ⟨fragment⟩⟩

/-! ## The six public operations

Each operation is translated as a function of the explicit inputs it
consumes: the instance, the Python arguments, the wall clock reading
`now` (`int(time.time() * 1000)`), the generated UUID where
`generate_session_id` is called, and the transport outcome where the
returned boolean depends on it. Each result carries the instance as left by
the call — the bodies contain no assignment to any `self` attribute, so the
translation returns the instance unchanged — together with the
`(event_type, data)` pair handed to `_send` and the Python return value. -/

/-- The `(event_type, data)` pair a call hands to `_send`. -/
structure SentEvent where
  event_type : String
  data : JVal
deriving Repr

/-- Everything observable about one tracker method call: the instance after
the call, the event handed to `_send`, and the method's return value. -/
structure CallResult (α : Type) where
  tracker : CRM360Tracker
  sent : SentEvent
  ret : α
deriving Repr

/-- `start_session`: resolve `session_id or self.generate_session_id()`,
build the session payload, send it, and return
`{"session_id": ..., "visitor_id": ...}`. `ip_address` is accepted and
unused, exactly as in the source. -/
def CRM360Tracker.start_session (t : CRM360Tracker) (visitor_id : String)
    (session_id : Option String) (user_agent _ip_address referrer entry_page
      utm_source utm_medium utm_campaign utm_term utm_content : Option String)
    (gen_session_id : String) (now : Int) : CallResult JVal :=
  let sid := pyOrStr session_id gen_session_id
  let data : JVal := .obj [
    ("visitorId", .str visitor_id),
    ("sessionId", .str sid),
    ("timestamp", .int now),
    ("referrer", .ofOptStr referrer),
    ("entryPage", .ofOptStr entry_page),
    ("device", .obj [("userAgent", .ofOptStr user_agent)]),
    ("utm", .obj [
      ("utmSource", .ofOptStr utm_source),
      ("utmMedium", .ofOptStr utm_medium),
      ("utmCampaign", .ofOptStr utm_campaign),
      ("utmTerm", .ofOptStr utm_term),
      ("utmContent", .ofOptStr utm_content)])]
  { tracker := t, sent := ⟨"session.start", data⟩,
    ret := .obj [("session_id", .str sid), ("visitor_id", .str visitor_id)] }

/-- `track_page_view`: extract the path (`urlparse(url).path or "/"`), build
the page payload, and return `_send`'s boolean. A `ValueError` raised by
`urlparse` propagates to the caller (it is outside `_send`'s `try`). -/
def CRM360Tracker.track_page_view (t : CRM360Tracker)
    (visitor_id session_id url : String) (title referrer : Option String)
    (load_time : Option Int) (now : Int) (outcome : HttpOutcome) :
    Except String (CallResult Bool) := do
  let parsed ← pyUrlparse url
  let path := if parsed.path = "" then "/" else parsed.path
  let data : JVal := .obj [
    ("sessionId", .str session_id),
    ("visitorId", .str visitor_id),
    ("url", .str url),
    ("path", .str path),
    ("title", .ofOptStr title),
    ("referrer", .ofOptStr referrer),
    ("timestamp", .int now),
    ("loadTime", .ofOptInt load_time)]
  return { tracker := t, sent := ⟨"page.view", data⟩,
           ret := t.sendResult "page.view" data outcome }

/-- Python `metadata or {}`: `None` and the empty dict both give `{}`, so
the two falsy cases coincide with defaulting to the empty list. -/
def pyOrDict (m : Option (List (String × JVal))) : List (String × JVal) :=
  match m with
  | none => []
  | some l => l

/-- `track_event`: wrap one event in a single-element `events` batch. The
payload carries no `visitorId` and its timestamp sits inside the event,
exactly as in the source. -/
def CRM360Tracker.track_event (t : CRM360Tracker)
    (_visitor_id session_id event_name event_type : String)
    (category value : Option String)
    (metadata : Option (List (String × JVal)))
    (now : Int) (outcome : HttpOutcome) : CallResult Bool :=
  let data : JVal := .obj [
    ("sessionId", .str session_id),
    ("events", .arr [.obj [
      ("type", .str event_type),
      ("name", .str event_name),
      ("category", .ofOptStr category),
      ("value", .ofOptStr value),
      ("metadata", .obj (pyOrDict metadata)),
      ("timestamp", .int now)]])]
  { tracker := t, sent := ⟨"events.batch", data⟩,
    ret := t.sendResult "events.batch" data outcome }

/-- The sensitive-keyword denylist of `track_form_submission`. -/
def sensitive_keywords : List String :=
  ["password", "secret", "token", "credit", "card", "cvv", "ssn"]

/-- `any(kw in key.lower() for kw in sensitive_keywords)`. -/
def isSensitiveField (key : String) : Bool :=
  sensitive_keywords.any (fun kw => strContainsSub (pyLower key) kw)

/-- The `safe_fields` loop: `None` fields give `{}` (the `if fields:` guard
also skips the loop for an empty dict, which coincides with mapping over the
empty list); otherwise each value is masked to `"***"` when its key is
sensitive and kept otherwise. -/
def sanitizeFields (fields : Option (List (String × String))) :
    List (String × JVal) :=
  match fields with
  | none => []
  | some fs =>
    fs.map (fun kv => (kv.1, .str (if isSensitiveField kv.1 then "***" else kv.2)))

/-- `track_form_submission`: mask sensitive fields and send the form payload. -/
def CRM360Tracker.track_form_submission (t : CRM360Tracker)
    (_visitor_id session_id form_id : String) (form_action : Option String)
    (fields : Option (List (String × String)))
    (now : Int) (outcome : HttpOutcome) : CallResult Bool :=
  let safe_fields := sanitizeFields fields
  let data : JVal := .obj [
    ("sessionId", .str session_id),
    ("formId", .str form_id),
    ("formAction", .ofOptStr form_action),
    ("fields", .obj safe_fields),
    ("timestamp", .int now)]
  { tracker := t, sent := ⟨"form.submit", data⟩,
    ret := t.sendResult "form.submit" data outcome }

/-- Insertion of one key into a Python dict literal built by merging: an
existing key is updated in place, a new key is appended. -/
def dictInsert (l : List (String × JVal)) (k : String) (v : JVal) :
    List (String × JVal) :=
  if l.any (fun kv => kv.1 == k) then
    l.map (fun kv => if kv.1 == k then (k, v) else kv)
  else l ++ [(k, v)]

/-- `{**base, **extra}` on dicts with distinct keys in each operand. -/
def dictMerge (base extra : List (String × JVal)) : List (String × JVal) :=
  extra.foldl (fun acc kv => dictInsert acc kv.1 kv.2) base

/-- `identify`: merge the five named traits with the `**traits` keyword
arguments, drop entries whose value is `None`, and send the identify
payload; the top-level `userId` is taken from `user_id` unconditionally. -/
def CRM360Tracker.identify (t : CRM360Tracker)
    (visitor_id session_id : String)
    (email user_id name phone company : Option String)
    (traits : List (String × JVal))
    (now : Int) (outcome : HttpOutcome) : CallResult Bool :=
  let all_traits := dictMerge [
    ("email", .ofOptStr email),
    ("userId", .ofOptStr user_id),
    ("name", .ofOptStr name),
    ("phone", .ofOptStr phone),
    ("company", .ofOptStr company)] traits
  let all_traits := all_traits.filter (fun kv => !kv.2.isNull)
  let data : JVal := .obj [
    ("sessionId", .str session_id),
    ("visitorId", .str visitor_id),
    ("userId", .ofOptStr user_id),
    ("traits", .obj all_traits),
    ("timestamp", .int now)]
  { tracker := t, sent := ⟨"user.identify", data⟩,
    ret := t.sendResult "user.identify" data outcome }

/-- The field list of the `traits` object inside a sent payload. -/
def sentTraits (r : CallResult Bool) : List (String × JVal) :=
  match r.sent.data.lookup "traits" with
  | some (.obj l) => l
  | _ => []

/-- `end_session`: minimal payload with the exit page as both `url` and
`path`; `visitor_id` is accepted and unused, exactly as in the source. -/
def CRM360Tracker.end_session (t : CRM360Tracker)
    (_visitor_id session_id : String) (exit_page : Option String)
    (now : Int) (outcome : HttpOutcome) : CallResult Bool :=
  let data : JVal := .obj [
    ("sessionId", .str session_id),
    ("url", .ofOptStr exit_page),
    ("path", .ofOptStr exit_page),
    ("timestamp", .int now)]
  { tracker := t, sent := ⟨"page.leave", data⟩,
    ret := t.sendResult "page.leave" data outcome }

/-- A concrete tracker instance for the concrete-input statements. -/
def sampleTracker : CRM360Tracker :=
  CRM360Tracker.init "test-key" "https://crm.example/api/v1/tracking/collect"
    5 false

/-- A concrete `start_session` call with `session_id` omitted: the generated
UUID is `"g-uuid-1"` and the clock reads `1700000000000`. -/
def sampleStartSession : CallResult JVal :=
  sampleTracker.start_session "v-1" none none none none none none none none
    none none "g-uuid-1" 1700000000000

/-! ## Helper lemmas -/

/-- The hex string of a byte list has two characters per byte. -/
theorem hexOfBytes_length (bs : List Nat) :
    (hexOfBytes bs).length = 2 * bs.length := by
  show (bs.flatMap _).length = 2 * bs.length
  induction bs with
  | nil => rfl
  | cons b tl ih => simp [List.flatMap_cons, ih]; omega

/-- A SHA-256 digest is 32 bytes long, whatever the message. -/
theorem sha256_length (msg : List Nat) : (sha256 msg).length = 32 := by
  simp [sha256, bytesOfWord]

/-! ## The claims -/

/-- C1: `_send` returns `true` if and only if the HTTP response status is
exactly 200; any other status, and any raised transport exception, yields
`false` — the `try/except` makes the function total, so no exception reaches
the caller. -/
theorem C1_send_true_iff_status_200 (t : CRM360Tracker) (event_type : String)
    (data : JVal) :
    (∀ outcome : HttpOutcome,
      t.sendResult event_type data outcome = true ↔
        ∃ r : HttpResponse, outcome = .ok r ∧ r.status_code = 200) ∧
    (∀ e : String, t.sendResult event_type data (.error e) = false) ∧
    (∀ r : HttpResponse, r.status_code ≠ 200 →
      t.sendResult event_type data (.ok r) = false) := by
  refine ⟨fun outcome => ?_, fun e => rfl, fun r hr => ?_⟩
  · cases outcome with
    | ok r =>
      simp only [CRM360Tracker.sendResult, beq_iff_eq]
      constructor
      · exact fun h => ⟨r, rfl, h⟩
      · rintro ⟨r', hr', h⟩
        cases hr'
        exact h
    | error e =>
      simp only [CRM360Tracker.sendResult]
      constructor
      · intro h
        cases h
      · rintro ⟨r', hr', -⟩
        cases hr'
  · simp only [CRM360Tracker.sendResult, beq_eq_false_iff_ne, ne_eq]
    exact hr

/-- C1 witness: a 500 response yields `false`, via the theorem. -/
theorem C1_witness :
    (CRM360Tracker.init "k" "https://crm.example/collect" 5 false).sendResult
      "page.view" .null (.ok ⟨500, "oops"⟩) = false :=
  (C1_send_true_iff_status_200 (CRM360Tracker.init "k"
    "https://crm.example/collect" 5 false) "page.view" .null).2.2
    ⟨500, "oops"⟩ (by decide)

/-- C4: `generate_visitor_id` is the first 16 hex characters of the SHA-256
digest of `userAgent + ":" + ipAddress`, deterministic (independent of the
instance and of when it is called), and 16 characters long. -/
theorem C4_generate_visitor_id (t t' : CRM360Tracker) (ua ip : String) :
    t.generate_visitor_id ua ip =
      (hexOfBytes (sha256 (utf8Bytes (ua ++ ":" ++ ip)))).take 16 ∧
    t.generate_visitor_id ua ip = t'.generate_visitor_id ua ip ∧
    (t.generate_visitor_id ua ip).length = 16 := by
  refine ⟨rfl, rfl, ?_⟩
  show ((hexOfBytes (sha256 (utf8Bytes (ua ++ ":" ++ ip)))).take 16).length = 16
  have h2 := hexOfBytes_length (sha256 (utf8Bytes (ua ++ ":" ++ ip)))
  have h3 := sha256_length (utf8Bytes (ua ++ ":" ++ ip))
  simp only [String.length, String.data_take, List.length_take]
  simp only [String.length] at h2
  omega

/-- C2: `track_form_submission` masks the value of every key that contains
(case-insensitively, as a substring) one of the sensitive keywords with
`"***"` and passes every other value through unchanged; in particular
`{"password": "abc", "email": "a@b.com"}` becomes
`{"password": "***", "email": "a@b.com"}`. -/
theorem C2_form_fields_masked :
    (∀ (t : CRM360Tracker) (vid sid fid : String) (fa : Option String)
        (fields : List (String × String)) (now : Int) (oc : HttpOutcome),
      (t.track_form_submission vid sid fid fa (some fields) now
          oc).sent.data.lookup "fields" =
        some (.obj (fields.map (fun kv =>
          (kv.1, .str (if isSensitiveField kv.1 then "***" else kv.2)))))) ∧
    (sampleTracker.track_form_submission "v-1" "s-1" "signup" none
        (some [("password", "abc"), ("email", "a@b.com")]) 0
        (.error "conn")).sent.data.lookup "fields" =
      some (.obj [("password", .str "***"), ("email", .str "a@b.com")]) ∧
    isSensitiveField "Confirm_PASSWORD" = true ∧
    isSensitiveField "email" = false :=
  ⟨fun _ _ _ _ _ _ _ _ => rfl, by rfl, by decide, by decide⟩

/-- C3 counterexample: at a concrete call with `session_id` omitted,
`start_session` returns only the `{"session_id", "visitor_id"}` pair; the
returned value is not the envelope, and neither of its two field values (the
two id strings) is the envelope either — so the operation does not return
the envelope to the caller. -/
theorem C3_counterexample :
    sampleStartSession.ret =
      .obj [("session_id", .str "g-uuid-1"), ("visitor_id", .str "v-1")] ∧
    sampleStartSession.ret ≠
      sampleTracker.envelope "session.start" sampleStartSession.sent.data ∧
    JVal.str "g-uuid-1" ≠
      sampleTracker.envelope "session.start" sampleStartSession.sent.data ∧
    JVal.str "v-1" ≠
      sampleTracker.envelope "session.start" sampleStartSession.sent.data := by
  refine ⟨rfl, ?_, ?_, ?_⟩ <;>
    simp [sampleStartSession, sampleTracker, CRM360Tracker.init,
      CRM360Tracker.start_session, CRM360Tracker.envelope]

/-- C3 (amended): with `session_id` omitted, the freshly generated session
id is used in the payload, the event type is `"session.start"`, and the
operation returns the resolved `(visitorId, sessionId)` pair — as the dict
`{"session_id": ..., "visitor_id": ...}` — to the caller; the envelope is
sent, not returned. -/
theorem C3_amended_start_session (t : CRM360Tracker) (vid : String)
    (ua ip ref ep us um uc ut uco : Option String) (gen : String)
    (now : Int) :
    (t.start_session vid none ua ip ref ep us um uc ut uco gen
        now).sent.event_type = "session.start" ∧
    (t.start_session vid none ua ip ref ep us um uc ut uco gen
        now).sent.data.lookup "sessionId" = some (.str gen) ∧
    (t.start_session vid none ua ip ref ep us um uc ut uco gen now).ret =
      .obj [("session_id", .str gen), ("visitor_id", .str vid)] :=
  ⟨rfl, rfl, rfl⟩

/-- C5: the page-view payload carries the full original `url` unchanged and
a `path` equal to the URL's path component, defaulting to `"/"` when that
component is empty; `"https://example.com/products?x=1"` has path
`"/products"` and `"https://example.com"` has empty path, sent as `"/"`. -/
theorem C5_page_view_url_and_path :
    (∀ (t : CRM360Tracker) (vid sid url : String) (title ref : Option String)
        (lt : Option Int) (now : Int) (oc : HttpOutcome)
        (parsed : PyParseResult),
      pyUrlparse url = .ok parsed →
      (t.track_page_view vid sid url title ref lt now oc).map
          (fun r => (r.sent.data.lookup "url", r.sent.data.lookup "path")) =
        .ok (some (.str url),
          some (.str (if parsed.path = "" then "/" else parsed.path)))) ∧
    (pyUrlparse "https://example.com/products?x=1").map PyParseResult.path =
      .ok "/products" ∧
    (pyUrlparse "https://example.com").map PyParseResult.path = .ok "" ∧
    (sampleTracker.track_page_view "v-1" "s-1" "https://example.com" none
        none none 0 (.error "conn")).map
        (fun r => r.sent.data.lookup "path") = .ok (some (.str "/")) := by
  refine ⟨?_, by rfl, by rfl, by rfl⟩
  intro t vid sid url title ref lt now oc parsed h
  unfold CRM360Tracker.track_page_view
  rw [h]
  rfl

/-- C5 witness: the general statement applied to
`"https://example.com/products?x=1"`. -/
theorem C5_witness :
    pyUrlparse "https://example.com/products?x=1" =
      .ok ⟨"https", "example.com", "/products", "x=1", ""⟩ ∧
    (sampleTracker.track_page_view "v-1" "s-1"
        "https://example.com/products?x=1" none none none 0
        (.error "conn")).map
        (fun r => (r.sent.data.lookup "url", r.sent.data.lookup "path")) =
      .ok (some (.str "https://example.com/products?x=1"),
        some (.str "/products")) := by
  refine ⟨by rfl, ?_⟩
  have h := C5_page_view_url_and_path.1 sampleTracker "v-1" "s-1"
    "https://example.com/products?x=1" none none none 0 (.error "conn")
    ⟨"https", "example.com", "/products", "x=1", ""⟩ (by rfl)
  simpa using h

/-- C6: the `traits` map sent by `identify` is the merge of the five named
traits with the caller-supplied extra traits, with every `None`-valued entry
dropped — no null value ever appears inside `traits`; with
`email=None, name="Jane"` the map contains `name` and no `email` key. -/
theorem C6_identify_traits_merge_drop_null :
    (∀ (t : CRM360Tracker) (vid sid : String)
        (email uid nm ph co : Option String) (traits : List (String × JVal))
        (now : Int) (oc : HttpOutcome),
      sentTraits (t.identify vid sid email uid nm ph co traits now oc) =
        (dictMerge [("email", .ofOptStr email), ("userId", .ofOptStr uid),
          ("name", .ofOptStr nm), ("phone", .ofOptStr ph),
          ("company", .ofOptStr co)] traits).filter
          (fun kv => !kv.2.isNull)) ∧
    (∀ (t : CRM360Tracker) (vid sid : String)
        (email uid nm ph co : Option String) (traits : List (String × JVal))
        (now : Int) (oc : HttpOutcome) (k : String),
      (k, JVal.null) ∉
        sentTraits (t.identify vid sid email uid nm ph co traits now oc)) ∧
    sentTraits (sampleTracker.identify "v-1" "s-1" none none (some "Jane")
      none none [] 0 (.error "conn")) = [("name", .str "Jane")] := by
  have hA : ∀ (t : CRM360Tracker) (vid sid : String)
      (email uid nm ph co : Option String) (traits : List (String × JVal))
      (now : Int) (oc : HttpOutcome),
      sentTraits (t.identify vid sid email uid nm ph co traits now oc) =
        (dictMerge [("email", .ofOptStr email), ("userId", .ofOptStr uid),
          ("name", .ofOptStr nm), ("phone", .ofOptStr ph),
          ("company", .ofOptStr co)] traits).filter
          (fun kv => !kv.2.isNull) :=
    fun _ _ _ _ _ _ _ _ _ _ _ => rfl
  refine ⟨hA, ?_, by rfl⟩
  intro t vid sid email uid nm ph co traits now oc k hmem
  rw [hA] at hmem
  have hp := List.of_mem_filter hmem
  simp [JVal.isNull] at hp

/-- C7: every payload handed to `_send` carries a non-null `sessionId`
(always a string — for `start_session` the resolved one, for the other
operations the caller's, non-null by assumption) and the integer wall-clock
millisecond reading `now` taken at payload construction — at top level for
five operations, and inside the single batched event for `track_event`,
whose payload nests its timestamp there. -/
theorem C7_payloads_have_sessionId_and_timestamp
    (t : CRM360Tracker) (vid sid gen url eName eType fid : String)
    (sidOpt : Option String)
    (ua ip ref ep us um uc ut uco : Option String)
    (title category value fa exit_page : Option String)
    (metadata : Option (List (String × JVal)))
    (fields : Option (List (String × String)))
    (email uid nm ph co : Option String) (traits : List (String × JVal))
    (lt : Option Int) (now : Int) (oc : HttpOutcome) :
    ((t.start_session vid sidOpt ua ip ref ep us um uc ut uco gen
        now).sent.data.lookup "sessionId" =
          some (.str (pyOrStr sidOpt gen)) ∧
      (t.start_session vid sidOpt ua ip ref ep us um uc ut uco gen
        now).sent.data.lookup "timestamp" = some (.int now)) ∧
    ((t.track_page_view vid sid url title ref lt now oc).map
        (fun r => (r.sent.data.lookup "sessionId",
          r.sent.data.lookup "timestamp")) =
      (pyUrlparse url).map
        (fun _ => (some (.str sid), some (.int now)))) ∧
    ((t.track_event vid sid eName eType category value metadata now
        oc).sent.data.lookup "sessionId" = some (.str sid) ∧
      (t.track_event vid sid eName eType category value metadata now
        oc).sent.data.lookup "events" =
          some (.arr [.obj [("type", .str eType), ("name", .str eName),
            ("category", .ofOptStr category), ("value", .ofOptStr value),
            ("metadata", .obj (pyOrDict metadata)),
            ("timestamp", .int now)]])) ∧
    ((t.track_form_submission vid sid fid fa fields now
        oc).sent.data.lookup "sessionId" = some (.str sid) ∧
      (t.track_form_submission vid sid fid fa fields now
        oc).sent.data.lookup "timestamp" = some (.int now)) ∧
    ((t.identify vid sid email uid nm ph co traits now
        oc).sent.data.lookup "sessionId" = some (.str sid) ∧
      (t.identify vid sid email uid nm ph co traits now
        oc).sent.data.lookup "timestamp" = some (.int now)) ∧
    ((t.end_session vid sid exit_page now oc).sent.data.lookup "sessionId" =
        some (.str sid) ∧
      (t.end_session vid sid exit_page now oc).sent.data.lookup "timestamp" =
        some (.int now)) := by
  refine ⟨⟨rfl, rfl⟩, ?_, ⟨rfl, rfl⟩, ⟨rfl, rfl⟩, ⟨rfl, rfl⟩, ⟨rfl, rfl⟩⟩
  unfold CRM360Tracker.track_page_view
  cases hu : pyUrlparse url with
  | ok parsed => rfl
  | error e => rfl

/-- C8: construction stores exactly the given configuration and an empty
queue, and every public operation leaves the instance — configuration and
queue — unchanged (for `track_page_view`, on the exceptional path there is
no instance in the result at all). -/
theorem C8_instance_unchanged (ak ept : String) (tmo : Int) (dbg : Bool)
    (t : CRM360Tracker) (vid sid gen url eName eType fid : String)
    (sidOpt : Option String)
    (ua ip ref ep us um uc ut uco : Option String)
    (title category value fa exit_page : Option String)
    (metadata : Option (List (String × JVal)))
    (fields : Option (List (String × String)))
    (email uid nm ph co : Option String) (traits : List (String × JVal))
    (lt : Option Int) (now : Int) (oc : HttpOutcome) :
    ((CRM360Tracker.init ak ept tmo dbg).api_key = ak ∧
      (CRM360Tracker.init ak ept tmo dbg).endpoint = ept ∧
      (CRM360Tracker.init ak ept tmo dbg).timeout = tmo ∧
      (CRM360Tracker.init ak ept tmo dbg).debug = dbg ∧
      (CRM360Tracker.init ak ept tmo dbg).queue = []) ∧
    (t.start_session vid sidOpt ua ip ref ep us um uc ut uco gen
      now).tracker = t ∧
    ((t.track_page_view vid sid url title ref lt now oc).map (·.tracker) =
      (t.track_page_view vid sid url title ref lt now oc).map (fun _ => t)) ∧
    (t.track_event vid sid eName eType category value metadata now
      oc).tracker = t ∧
    (t.track_form_submission vid sid fid fa fields now oc).tracker = t ∧
    (t.identify vid sid email uid nm ph co traits now oc).tracker = t ∧
    (t.end_session vid sid exit_page now oc).tracker = t := by
  refine ⟨⟨rfl, rfl, rfl, rfl, rfl⟩, rfl, ?_, rfl, rfl, rfl, rfl⟩
  unfold CRM360Tracker.track_page_view
  cases hu : pyUrlparse url with
  | ok parsed => rfl
  | error e => rfl

/-- C9: when `user_id` is absent, the `identify` payload still carries a
top-level `userId` key with a null value — the null-dropping rule acts only
inside `traits` (shown by the same call sending an empty `traits` map while
keeping the null top-level `userId`). -/
theorem C9_identify_userId_null_kept :
    (∀ (t : CRM360Tracker) (vid sid : String) (email nm ph co : Option String)
        (traits : List (String × JVal)) (now : Int) (oc : HttpOutcome),
      (t.identify vid sid email none nm ph co traits now
        oc).sent.data.lookup "userId" = some .null) ∧
    (sampleTracker.identify "v-1" "s-1" none none none none none [] 0
      (.error "conn")).sent.data.lookup "userId" = some .null ∧
    sentTraits (sampleTracker.identify "v-1" "s-1" none none none none none
      [] 0 (.error "conn")) = [] :=
  ⟨fun _ _ _ _ _ _ _ _ _ _ => rfl, by rfl, by rfl⟩

/-- C10: when `fields` is omitted, the form payload's `fields` entry is the
empty object, present and never null. -/
theorem C10_fields_empty_obj_when_absent
    (t : CRM360Tracker) (vid sid fid : String) (fa : Option String)
    (now : Int) (oc : HttpOutcome) :
    (t.track_form_submission vid sid fid fa none now
      oc).sent.data.lookup "fields" = some (.obj []) ∧
    (t.track_form_submission vid sid fid fa none now
      oc).sent.data.lookup "fields" ≠ some .null :=
  ⟨rfl, fun h => JVal.noConfusion (Option.some.inj h)⟩
